import Mathlib

/-!
Verification of `src/latency.cpp` (HIP per-compute-unit latency microbenchmark).

The development shallowly embeds the three parts of the program:
* the device-side locator `__smid` (latency.cpp:109-149) together with the
  architecture-conditional macro constants it reads (latency.cpp:51-101);
* the kernel `k` (latency.cpp:151-175) with its leader-filtering guard and
  the five-iteration timed block;
* the host orchestrator `main` (latency.cpp:177-213) with the
  `hipCheckError` macro (latency.cpp:13-19).

Machine integers are Nats reduced modulo `2 ^ 32` exactly where the C code's
`unsigned int` arithmetic wraps.  Hardware state the program merely observes
(the HW_ID registers, the cycle counter, the device-API error state) is
supplied as oracle functions.
-/

/-- `2 ^ 32`, the modulus of C `unsigned int` arithmetic. -/
def M32 : Nat := 4294967296

/-- latency.cpp:6 `#define NUM_SM 120` — grid size of the launch. -/
def NUM_SM : Nat := 120

/-- latency.cpp:7 `#define BLOCK_SIZE 64` — threads per block. -/
def BLOCK_SIZE : Nat := 64

/-- latency.cpp:8 `#define S_SIZE ((8*1024)*1024)/16` — element count of each
device buffer. -/
def S_SIZE : Nat := 8 * 1024 * 1024 / 16

/-- latency.cpp:9 `#define ITERATION 5` — iteration count of the timed block. -/
def ITERATION : Nat := 5

/-! ## The architecture-conditional macro constants (latency.cpp:51-87)

The preprocessor selects one architecture at build time.  `Arch` enumerates
the architecture families the source distinguishes; each macro becomes a
function of the selected architecture with exactly the values the
`#if`/`#else` chains assign. -/

/-- The build-time architecture families distinguished by the preprocessor
conditionals of latency.cpp.  `gfx10cu`/`gfx11cu` are the GFX10/GFX11 builds
with `__AMDGCN_CUMODE__` defined; `gcnDefault` is any remaining GCN/CDNA
target (neither GFX10/11 nor gfx908/90a nor gfx940-942). -/
inductive Arch
| gfx10 | gfx10cu | gfx11 | gfx11cu
| gfx908 | gfx90a
| gfx940 | gfx941 | gfx942
| gcnDefault
deriving DecidableEq

/-- `defined(__GFX10__) || defined(__GFX11__)` (latency.cpp:51,57,75,115,132). -/
def isGFX10or11 : Arch → Bool
| .gfx10 | .gfx10cu | .gfx11 | .gfx11cu => true
| _ => false

/-- `defined(__AMDGCN_CUMODE__)` (latency.cpp:60,120,136). -/
def isCUMODE : Arch → Bool
| .gfx10cu | .gfx11cu => true
| _ => false

/-- `defined(__gfx940__) || defined(__gfx941__) || defined(__gfx942__)`
(latency.cpp:83,125,141). -/
def isGFX94x : Arch → Bool
| .gfx940 | .gfx941 | .gfx942 => true
| _ => false

/-- latency.cpp:51-55: the HW_ID register number, 23 on GFX10/11 and 4
otherwise. -/
def HW_ID (a : Arch) : Nat := if isGFX10or11 a then 23 else 4

/-- latency.cpp:58 `#define HW_ID_WGP_ID_SIZE 4`. -/
def HW_ID_WGP_ID_SIZE : Nat := 4

/-- latency.cpp:59 `#define HW_ID_WGP_ID_OFFSET 10`. -/
def HW_ID_WGP_ID_OFFSET : Nat := 10

/-- latency.cpp:61,65: CU_ID field size — 1 on GFX10/11 (CU mode), 4 on the
other targets. -/
def HW_ID_CU_ID_SIZE (a : Arch) : Nat := if isGFX10or11 a then 1 else 4

/-- latency.cpp:62,66 `#define HW_ID_CU_ID_OFFSET 8` (same value on every
branch). -/
def HW_ID_CU_ID_OFFSET : Nat := 8

/-- latency.cpp:69-74: SE_ID field size — 3 for gfx908, gfx90a and GFX11,
2 otherwise. -/
def HW_ID_SE_ID_SIZE (a : Arch) : Nat :=
  match a with
  | .gfx908 | .gfx90a | .gfx11 | .gfx11cu => 3
  | _ => 2

/-- latency.cpp:76,80: SE_ID field offset — 18 on GFX10/11, 13 otherwise. -/
def HW_ID_SE_ID_OFFSET (a : Arch) : Nat := if isGFX10or11 a then 18 else 13

/-- latency.cpp:77 `#define HW_ID_SA_ID_OFFSET 16`. -/
def HW_ID_SA_ID_OFFSET : Nat := 16

/-- latency.cpp:78 `#define HW_ID_SA_ID_SIZE 1`. -/
def HW_ID_SA_ID_SIZE : Nat := 1

/-- latency.cpp:84 `#define XCC_ID 20` — the XCC_ID register number. -/
def XCC_ID : Nat := 20

/-- latency.cpp:85 `#define XCC_ID_XCC_ID_SIZE 4`. -/
def XCC_ID_XCC_ID_SIZE : Nat := 4

/-- latency.cpp:86 `#define XCC_ID_XCC_ID_OFFSET 0`. -/
def XCC_ID_XCC_ID_OFFSET : Nat := 0

/-- latency.cpp:101
`#define GETREG_IMMED(SZ,OFF,REG) (((SZ) << 11) | ((OFF) << 6) | (REG))` —
the parameter bitmask of `s_getreg`: REG in bits 5:0, OFFSET in bits 10:6,
SIZE (1-based, stored minus 1) in bits 15:11. -/
def GETREG_IMMED (sz off reg : Nat) : Nat := ((sz <<< 11) ||| (off <<< 6)) ||| reg

/-- Semantics of `__builtin_amdgcn_s_getreg`: given the machine's register
file `regs` (register number to 32-bit contents) and the immediate bitmask,
extract `size` bits of the selected register starting at `offset`, where the
stored size field is 1-based minus one (latency.cpp:94-99,107). -/
def s_getreg (regs : Nat → Nat) (imm : Nat) : Nat :=
  (regs (imm % 64) >>> ((imm >>> 6) % 32)) % 2 ^ ((imm >>> 11) % 32 + 1)

/-- latency.cpp:113-114: the `se_id` local of `__smid`. -/
def se_id (a : Arch) (regs : Nat → Nat) : Nat :=
  s_getreg regs (GETREG_IMMED (HW_ID_SE_ID_SIZE a - 1) (HW_ID_SE_ID_OFFSET a) (HW_ID a))

/-- latency.cpp:116-117: the `wgp_id` local of `__smid` (GFX10/11 only). -/
def wgp_id (a : Arch) (regs : Nat → Nat) : Nat :=
  s_getreg regs (GETREG_IMMED (HW_ID_WGP_ID_SIZE - 1) HW_ID_WGP_ID_OFFSET (HW_ID a))

/-- latency.cpp:118-119: the `sa_id` local of `__smid` (GFX10/11 only). -/
def sa_id (a : Arch) (regs : Nat → Nat) : Nat :=
  s_getreg regs (GETREG_IMMED (HW_ID_SA_ID_SIZE - 1) HW_ID_SA_ID_OFFSET (HW_ID a))

/-- latency.cpp:121-122,129-130: the `cu_id` local of `__smid`. -/
def cu_id (a : Arch) (regs : Nat → Nat) : Nat :=
  s_getreg regs (GETREG_IMMED (HW_ID_CU_ID_SIZE a - 1) HW_ID_CU_ID_OFFSET (HW_ID a))

/-- latency.cpp:126-127: the `xcc_id` local of `__smid` (gfx940-942 only). -/
def xcc_id (regs : Nat → Nat) : Nat :=
  s_getreg regs (GETREG_IMMED (XCC_ID_XCC_ID_SIZE - 1) XCC_ID_XCC_ID_OFFSET XCC_ID)

/-- latency.cpp:133-135,139: the GFX10/11 WGP-mode packing chain
`temp = se; temp = (temp << HW_ID_SA_ID_SIZE) | sa;
temp = (temp << HW_ID_WGP_ID_SIZE) | wgp` (sizes 1 and 4). -/
def smid_pack_wgp (se sa wgp : Nat) : Nat :=
  ((se <<< HW_ID_SA_ID_SIZE) ||| sa) <<< HW_ID_WGP_ID_SIZE ||| wgp

/-- latency.cpp:136-138: the GFX10/11 CU-mode packing chain, which appends the
1-bit `cu_id` (`HW_ID_CU_ID_SIZE` is 1 there) to the WGP-mode pack. -/
def smid_pack_wgp_cu (se sa wgp cu : Nat) : Nat :=
  (smid_pack_wgp se sa wgp) <<< 1 ||| cu

/-- latency.cpp:142-145: the gfx940-942 packing chain
`temp = xcc; temp = (temp << HW_ID_SE_ID_SIZE) | se;
temp = (temp << HW_ID_CU_ID_SIZE) | cu` (sizes 2 and 4 on those targets). -/
def smid_pack_xcc (xcc se cu : Nat) : Nat :=
  ((xcc <<< 2) ||| se) <<< 4 ||| cu

/-- latency.cpp:147: the GCN/CDNA packing
`(se_id << HW_ID_CU_ID_SIZE) + cu_id` (size 4). -/
def smid_pack_gcn (se cu : Nat) : Nat := (se <<< 4) + cu

/-- latency.cpp:109-149: `__smid`, the Hardware-Unit Locator.  Reads the
architecture's identity fields from the register file and packs them into one
composite identity, following the three preprocessor branches of the source. -/
def __smid (a : Arch) (regs : Nat → Nat) : Nat :=
  if isGFX10or11 a then
    if isCUMODE a then
      smid_pack_wgp_cu (se_id a regs) (sa_id a regs) (wgp_id a regs) (cu_id a regs)
    else
      smid_pack_wgp (se_id a regs) (sa_id a regs) (wgp_id a regs)
  else if isGFX94x a then
    smid_pack_xcc (xcc_id regs) (se_id a regs) (cu_id a regs)
  else
    smid_pack_gcn (se_id a regs) (cu_id a regs)

/-- Modelled from the spec: the kernel `k` calls `get_smid()`
(latency.cpp:153), a function with no definition under src/.  The spec's
kernel contract says every thread queries its own identity via the Locator,
and the Locator is `__smid`; `get_smid` is therefore modelled as `__smid`
applied to the calling thread's register file. -/
def get_smid (a : Arch) (regs : Nat → Nat) : Nat := __smid a regs

/-! ## Arithmetic form of the packing chains -/

/-- A left shift by `n` or-ed with a value below `2 ^ n` is plain
place-value arithmetic. -/
theorem shl_or_eq (n x w : Nat) (h : w < 2 ^ n) :
    (x <<< n) ||| w = 2 ^ n * x + w := by
  rw [Nat.shiftLeft_eq, Nat.mul_comm, ← Nat.mul_add_lt_is_or h]

theorem smid_pack_wgp_eq (se sa wgp : Nat) (hsa : sa < 2) (hwgp : wgp < 16) :
    smid_pack_wgp se sa wgp = 32 * se + 16 * sa + wgp := by
  unfold smid_pack_wgp
  rw [HW_ID_SA_ID_SIZE, HW_ID_WGP_ID_SIZE,
    shl_or_eq 1 se sa (by simpa using hsa),
    shl_or_eq 4 _ wgp (by simpa using hwgp)]
  ring

theorem smid_pack_wgp_cu_eq (se sa wgp cu : Nat)
    (hsa : sa < 2) (hwgp : wgp < 16) (hcu : cu < 2) :
    smid_pack_wgp_cu se sa wgp cu = 64 * se + 32 * sa + 2 * wgp + cu := by
  unfold smid_pack_wgp_cu
  rw [shl_or_eq 1 _ cu (by simpa using hcu), smid_pack_wgp_eq se sa wgp hsa hwgp]
  ring

theorem smid_pack_xcc_eq (xcc se cu : Nat) (hse : se < 4) (hcu : cu < 16) :
    smid_pack_xcc xcc se cu = 64 * xcc + 16 * se + cu := by
  unfold smid_pack_xcc
  rw [shl_or_eq 2 xcc se (by simpa using hse), shl_or_eq 4 _ cu (by simpa using hcu)]
  ring

theorem smid_pack_gcn_eq (se cu : Nat) :
    smid_pack_gcn se cu = 16 * se + cu := by
  unfold smid_pack_gcn
  rw [Nat.shiftLeft_eq]
  ring

/-- Claim C6: the identity-packing function is injective — on each
architecture branch of `__smid`, for all legal combinations of the
constituent hardware-field values (each field ranging over the full span of
its architecture-specific bit width: SE 3 bits, SA 1 bit, WGP 4 bits, CU 1
bit in GFX10/11 CU mode and 4 bits on GCN/CDNA, XCC 4 bits, SE 2 bits on
gfx940-942), no two distinct field combinations produce the same composite
integer identity. -/
theorem smid_pack_injective :
    (∀ se sa wgp se' sa' wgp' : Nat,
      se < 8 → sa < 2 → wgp < 16 → se' < 8 → sa' < 2 → wgp' < 16 →
      smid_pack_wgp se sa wgp = smid_pack_wgp se' sa' wgp' →
      se = se' ∧ sa = sa' ∧ wgp = wgp') ∧
    (∀ se sa wgp cu se' sa' wgp' cu' : Nat,
      se < 8 → sa < 2 → wgp < 16 → cu < 2 → se' < 8 → sa' < 2 → wgp' < 16 → cu' < 2 →
      smid_pack_wgp_cu se sa wgp cu = smid_pack_wgp_cu se' sa' wgp' cu' →
      se = se' ∧ sa = sa' ∧ wgp = wgp' ∧ cu = cu') ∧
    (∀ xcc se cu xcc' se' cu' : Nat,
      xcc < 16 → se < 4 → cu < 16 → xcc' < 16 → se' < 4 → cu' < 16 →
      smid_pack_xcc xcc se cu = smid_pack_xcc xcc' se' cu' →
      xcc = xcc' ∧ se = se' ∧ cu = cu') ∧
    (∀ se cu se' cu' : Nat,
      se < 8 → cu < 16 → se' < 8 → cu' < 16 →
      smid_pack_gcn se cu = smid_pack_gcn se' cu' →
      se = se' ∧ cu = cu') := by
  refine ⟨?_, ?_, ?_, ?_⟩
  · intro se sa wgp se' sa' wgp' _ hsa hwgp _ hsa' hwgp' heq
    rw [smid_pack_wgp_eq se sa wgp hsa hwgp,
      smid_pack_wgp_eq se' sa' wgp' hsa' hwgp'] at heq
    omega
  · intro se sa wgp cu se' sa' wgp' cu' _ hsa hwgp hcu _ hsa' hwgp' hcu' heq
    rw [smid_pack_wgp_cu_eq se sa wgp cu hsa hwgp hcu,
      smid_pack_wgp_cu_eq se' sa' wgp' cu' hsa' hwgp' hcu'] at heq
    omega
  · intro xcc se cu xcc' se' cu' _ hse hcu _ hse' hcu' heq
    rw [smid_pack_xcc_eq xcc se cu hse hcu,
      smid_pack_xcc_eq xcc' se' cu' hse' hcu'] at heq
    omega
  · intro se cu se' cu' _ hcu _ hcu' heq
    rw [smid_pack_gcn_eq, smid_pack_gcn_eq] at heq
    omega

/-- Witness for `smid_pack_injective`: its hypotheses are satisfiable — the
GCN conjunct applied at the concrete fields (3, 5) and (3, 5). -/
theorem smid_pack_injective_witness :
    (3 : Nat) < 8 ∧ (5 : Nat) < 16 ∧
    smid_pack_gcn 3 5 = smid_pack_gcn 3 5 ∧ ((3 : Nat) = 3 ∧ (5 : Nat) = 5) :=
  ⟨by decide, by decide, rfl,
    smid_pack_injective.2.2.2 3 5 3 5 (by decide) (by decide) (by decide) (by decide) rfl⟩

/-! ## The kernel `k` (latency.cpp:151-175)

One GPU-visible state carries the two device buffers, the lines printed so
far, and a trace of the observable per-thread events (cycle-counter reads,
stores into `a0`, printed samples).  The cycle counter is an oracle
`clk : Nat → Nat` giving the value returned by the thread's successive
`clock()` calls; register files are an oracle per thread. -/

/-- An observable event of one kernel thread: a `clock()` read returning
`v`, a store of `val` into `a0[idx]`, or a printed latency sample. -/
inductive Ev
| readClock (v : Nat)
| store (idx val : Nat)
| emit (v : Nat)
deriving DecidableEq

/-- Device-visible state: the two buffers (element index to `unsigned int`
value), the printed lines (as the printed numbers, in order), and the event
trace. -/
structure GpuState where
  a0 : Nat → Nat
  a1 : Nat → Nat
  out : List Nat
  trace : List Ev

/-- C `unsigned int` subtraction `a - b` (wrap-around modulo `2 ^ 32`). -/
def usub32 (a b : Nat) : Nat := (a % M32 + (M32 - b % M32)) % M32

/-- One iteration of the timed block (latency.cpp:159-171), in program
order: `start = clock()`, `a0[start_idx] += a1[0]`,
`latency = clock() - start`, `printf("%u\n", latency)`. -/
def iterStep (clk : Nat → Nat) (start_idx : Nat) (i : Nat) (s : GpuState) : GpuState :=
  let start := clk (2 * i) % M32
  let v := (s.a0 start_idx + s.a1 0) % M32
  let stop := clk (2 * i + 1) % M32
  let latency := usub32 stop start
  { a0 := Function.update s.a0 start_idx v
    a1 := s.a1
    out := s.out ++ [latency]
    trace := s.trace ++ [Ev.readClock start, Ev.store start_idx v, Ev.readClock stop, Ev.emit latency] }

/-- The timed block: the `for (i = 0; i < ITERATION; i++)` loop of the
leader thread (latency.cpp:159-171). -/
def leaderLoop (clk : Nat → Nat) (start_idx : Nat) (s : GpuState) : GpuState :=
  (List.range ITERATION).foldl (fun st i => iterStep clk start_idx i st) s

/-- One thread of the kernel `k` (latency.cpp:151-175): it obtains
`sm_id = get_smid()` and runs the timed block iff
`sm_id == sm_chosen && threadIdx.x == 0`; otherwise it does nothing.
`regs` is the thread's register file, `tid` its `threadIdx.x`. -/
def kThread (a : Arch) (regs : Nat → Nat) (clk : Nat → Nat)
    (start_idx sm_chosen tid : Nat) (s : GpuState) : GpuState :=
  let sm_id := get_smid a regs
  if sm_id = sm_chosen ∧ tid = 0 then leaderLoop clk start_idx s else s

/-- The launch `k<<<NUM_SM, BLOCK_SIZE>>>` (latency.cpp:202): every thread
of every block runs `kThread`.  The threads are folded sequentially; since
every thread failing the guard is the identity on the state, this represents
any hardware schedule in the zero-match and single-match cases the claims
speak about.  `regsOf b t` and `clkOf b t` are the register file and
cycle-counter oracle of thread `t` of block `b`. -/
def kLaunch (a : Arch) (regsOf clkOf : Nat → Nat → Nat → Nat)
    (start_idx sm_chosen : Nat) (s : GpuState) : GpuState :=
  (List.range NUM_SM).foldl (fun st b =>
    (List.range BLOCK_SIZE).foldl (fun st2 t =>
      kThread a (regsOf b t) (clkOf b t) start_idx sm_chosen t st2) st) s

/-- latency.cpp:193-195: the host staging array, `h_arr[i] = i` stored as
`unsigned int`. -/
def h_arr : Nat → Nat := fun i => i % M32

/-- The device state right after the two `hipMemcpy` calls
(latency.cpp:197-200): both buffers hold the identity sequence, nothing has
been printed. -/
def devInit : GpuState := { a0 := h_arr, a1 := h_arr, out := [], trace := [] }

/-! ## Fold lemmas for the launch -/

/-- A fold whose step fixes the state on every list element is the
identity. -/
theorem foldl_fixed {α β : Type} (f : α → β → α) :
    ∀ (l : List β) (s : α), (∀ x ∈ l, ∀ st, f st x = st) → l.foldl f s = s := by
  intro l
  induction l with
  | nil => intro s _; rfl
  | cons hd tl ih =>
    intro s h
    rw [List.foldl_cons, h hd (List.mem_cons_self hd tl) s]
    exact ih s (fun x hx st => h x (List.mem_cons_of_mem _ hx) st)

/-- A guarded fold over a list on which the guard never fires is the
identity. -/
theorem foldl_guard_zero {α β : Type} (p : β → Bool) (L : β → α → α) :
    ∀ (l : List β) (s : α), l.countP p = 0 →
      l.foldl (fun st x => if p x then L x st else st) s = s := by
  intro l
  induction l with
  | nil => intro s _; rfl
  | cons hd tl ih =>
    intro s h
    rw [List.countP_cons] at h
    cases hph : p hd with
    | false =>
      have hc : tl.countP p = 0 := by rw [hph] at h; simpa using h
      rw [List.foldl_cons, if_neg (by simp [hph])]
      exact ih s hc
    | true =>
      rw [hph] at h
      simp at h

/-- A guarded fold over a list on which the guard fires exactly once is the
single guarded action. -/
theorem foldl_guard_one {α β : Type} (p : β → Bool) (L : β → α → α) :
    ∀ (l : List β) (s : α), l.countP p = 1 →
      ∃ b ∈ l, p b = true ∧
        l.foldl (fun st x => if p x then L x st else st) s = L b s := by
  intro l
  induction l with
  | nil => intro s h; simp at h
  | cons hd tl ih =>
    intro s h
    rw [List.countP_cons] at h
    cases hph : p hd with
    | true =>
      have hc : tl.countP p = 0 := by rw [hph] at h; simpa using h
      refine ⟨hd, List.mem_cons_self hd tl, hph, ?_⟩
      rw [List.foldl_cons, if_pos hph]
      exact foldl_guard_zero p L tl (L hd s) hc
    | false =>
      have hc : tl.countP p = 1 := by rw [hph] at h; simpa using h
      obtain ⟨b, hbmem, hpb, heq⟩ := ih s hc
      refine ⟨b, List.mem_cons_of_mem _ hbmem, hpb, ?_⟩
      rw [List.foldl_cons, if_neg (by simp [hph])]
      exact heq

/-- A fold that preserves an invariant preserves it to the end. -/
theorem foldl_inv {α β : Type} (P : α → Prop) (f : α → β → α) :
    ∀ (l : List β) (s : α), P s → (∀ st x, P st → P (f st x)) → P (l.foldl f s) := by
  intro l
  induction l with
  | nil => intro s hs _; exact hs
  | cons hd tl ih =>
    intro s hs hf
    rw [List.foldl_cons]
    exact ih (f s hd) (hf s hd hs) hf

/-! ## Shape of the launch -/

/-- Threads with `threadIdx.x` nonzero never pass the guard of `k`. -/
theorem kThread_tid_ne (a : Arch) (regs clk : Nat → Nat)
    (start_idx sm_chosen tid : Nat) (s : GpuState) (ht : tid ≠ 0) :
    kThread a regs clk start_idx sm_chosen tid s = s := by
  unfold kThread
  rw [if_neg (fun hc => ht hc.2)]

/-- The leader thread runs the timed block exactly when its locator value
matches the chosen identity. -/
theorem kThread_leader (a : Arch) (regs clk : Nat → Nat)
    (start_idx sm_chosen : Nat) (s : GpuState) :
    kThread a regs clk start_idx sm_chosen 0 s =
      if (get_smid a regs == sm_chosen) then leaderLoop clk start_idx s else s := by
  unfold kThread
  simp

/-- `List.range BLOCK_SIZE` split into the leader and the other threads. -/
theorem range_BLOCK_SIZE : List.range BLOCK_SIZE = 0 :: (List.range 63).map Nat.succ := by
  decide

/-- Block `b` of the launch applies that block's leader thread only. -/
theorem block_fold (a : Arch) (regsOf clkOf : Nat → Nat → Nat → Nat)
    (start_idx sm_chosen b : Nat) (st : GpuState) :
    (List.range BLOCK_SIZE).foldl (fun st2 t =>
        kThread a (regsOf b t) (clkOf b t) start_idx sm_chosen t st2) st =
      if (get_smid a (regsOf b 0) == sm_chosen) then
        leaderLoop (clkOf b 0) start_idx st
      else st := by
  rw [range_BLOCK_SIZE, List.foldl_cons, kThread_leader]
  exact foldl_fixed _ _ _ (fun t htmem st2 => by
    obtain ⟨y, _, hy⟩ := List.mem_map.1 htmem
    exact kThread_tid_ne _ _ _ _ _ _ _ (hy ▸ Nat.succ_ne_zero y))

/-- Does block `b`'s leader-reported locator identity match the chosen
target? -/
def blockMatches (a : Arch) (regsOf : Nat → Nat → Nat → Nat) (sm_chosen b : Nat) : Bool :=
  get_smid a (regsOf b 0) == sm_chosen

/-- How many of the `NUM_SM` launched blocks match the chosen identity. -/
def matchCount (a : Arch) (regsOf : Nat → Nat → Nat → Nat) (sm_chosen : Nat) : Nat :=
  (List.range NUM_SM).countP (blockMatches a regsOf sm_chosen)

/-- The launch reduces to a guarded fold over the blocks. -/
theorem kLaunch_eq (a : Arch) (regsOf clkOf : Nat → Nat → Nat → Nat)
    (start_idx sm_chosen : Nat) (s : GpuState) :
    kLaunch a regsOf clkOf start_idx sm_chosen s =
      (List.range NUM_SM).foldl (fun st b =>
        if blockMatches a regsOf sm_chosen b then
          leaderLoop (clkOf b 0) start_idx st
        else st) s := by
  unfold kLaunch
  exact List.foldl_ext _ _ s (fun st b _ => by rw [block_fold]; rfl)

/-! ## The timed block in closed form -/

/-- `List.range ITERATION` spelled out. -/
theorem range_ITERATION : List.range ITERATION = [0, 1, 2, 3, 4] := by decide

/-- The latency sample of iteration `i`: the second cycle-counter reading
minus the first, in `unsigned int` arithmetic. -/
def latOf (clk : Nat → Nat) (i : Nat) : Nat :=
  usub32 (clk (2 * i + 1) % M32) (clk (2 * i) % M32)

/-- The value stored into `a0[start_idx]` by iteration `i` of the timed
block, starting from state `s`: the original element plus `i + 1` copies of
`a1[0]`, wrapped. -/
def storeVal (s : GpuState) (start_idx i : Nat) : Nat :=
  (s.a0 start_idx + (i + 1) * s.a1 0) % M32

/-- Output of the timed block: one sample per iteration, appended in
iteration order. -/
theorem leaderLoop_out (clk : Nat → Nat) (start_idx : Nat) (s : GpuState) :
    (leaderLoop clk start_idx s).out = s.out ++ (List.range ITERATION).map (latOf clk) := by
  rw [leaderLoop, range_ITERATION]
  simp [iterStep, latOf]

/-- The buffer `a1` is never written by the timed block. -/
theorem leaderLoop_a1 (clk : Nat → Nat) (start_idx : Nat) (s : GpuState) :
    (leaderLoop clk start_idx s).a1 = s.a1 := by
  rw [leaderLoop, range_ITERATION]
  simp [iterStep]

/-- Elements of `a0` other than `a0[start_idx]` are never written by the
timed block. -/
theorem leaderLoop_a0_ne (clk : Nat → Nat) (start_idx : Nat) (s : GpuState)
    (j : Nat) (hj : j ≠ start_idx) :
    (leaderLoop clk start_idx s).a0 j = s.a0 j := by
  rw [leaderLoop, range_ITERATION]
  simp [iterStep, Function.update_apply, hj]

/-- Event trace of the timed block: for each iteration, in program order, a
cycle-counter read, the store into `a0[start_idx]`, a second cycle-counter
read, and the emitted latency sample. -/
theorem leaderLoop_trace (clk : Nat → Nat) (start_idx : Nat) (s : GpuState) :
    (leaderLoop clk start_idx s).trace = s.trace ++ (List.range ITERATION).flatMap (fun i =>
      [Ev.readClock (clk (2 * i) % M32), Ev.store start_idx (storeVal s start_idx i),
       Ev.readClock (clk (2 * i + 1) % M32), Ev.emit (latOf clk i)]) := by
  rw [leaderLoop, range_ITERATION]
  simp [iterStep, latOf, storeVal, Function.update_same, M32]
  omega

/-- Latency samples are `unsigned int` values. -/
theorem usub32_lt (a b : Nat) : usub32 a b < M32 := by
  unfold usub32
  exact Nat.mod_lt _ (by decide)

/-- Claim C1: every launched thread obtains its identity from the Locator
(`get_smid`, modelled per the spec as `__smid`) and executes the timed block
iff that identity equals the operator-supplied target AND its local thread
index is 0; any other thread leaves the state — buffers, output and event
trace — untouched. -/
theorem k_guard (a : Arch) (regs clk : Nat → Nat)
    (start_idx sm_chosen tid : Nat) (s : GpuState) :
    get_smid a regs = __smid a regs ∧
    (get_smid a regs = sm_chosen ∧ tid = 0 →
      kThread a regs clk start_idx sm_chosen tid s = leaderLoop clk start_idx s) ∧
    (¬(get_smid a regs = sm_chosen ∧ tid = 0) →
      kThread a regs clk start_idx sm_chosen tid s = s) := by
  refine ⟨rfl, fun h => ?_, fun h => ?_⟩
  · simp only [kThread]
    rw [if_pos h]
  · simp only [kThread]
    rw [if_neg h]

/-- Witness for `k_guard`: on a gcn build with an all-zero register file the
locator reports 0, so the leader of a block with target 0 runs the timed
block, and thread 1 of the same block does nothing. -/
theorem k_guard_witness :
    (get_smid Arch.gcnDefault (fun _ => 0) = 0 ∧ (0 : Nat) = 0) ∧
    kThread Arch.gcnDefault (fun _ => 0) (fun n => n) 3 0 0 devInit =
      leaderLoop (fun n => n) 3 devInit ∧
    kThread Arch.gcnDefault (fun _ => 0) (fun n => n) 3 0 1 devInit = devInit :=
  ⟨⟨by decide, rfl⟩,
    (k_guard Arch.gcnDefault (fun _ => 0) (fun n => n) 3 0 0 devInit).2.1 ⟨by decide, rfl⟩,
    (k_guard Arch.gcnDefault (fun _ => 0) (fun n => n) 3 0 1 devInit).2.2 (by decide)⟩

/-- Claim C2: for a matching leader thread, each of the exactly `ITERATION`
(5) iterations of the timed block performs, in program order, a
cycle-counter read, the store `a0[start_idx] += a1[0]`, a second
cycle-counter read, and the emission of the latency — the difference of the
two readings — as one output line; the 5 samples appear in iteration
order. -/
theorem k_timed_block (a : Arch) (regs clk : Nat → Nat)
    (start_idx sm_chosen tid : Nat) (s : GpuState)
    (hg : get_smid a regs = sm_chosen ∧ tid = 0)
    (hout : s.out = []) (htr : s.trace = []) :
    (kThread a regs clk start_idx sm_chosen tid s).trace =
      (List.range ITERATION).flatMap (fun i =>
        [Ev.readClock (clk (2 * i) % M32), Ev.store start_idx (storeVal s start_idx i),
         Ev.readClock (clk (2 * i + 1) % M32), Ev.emit (latOf clk i)]) ∧
    (kThread a regs clk start_idx sm_chosen tid s).out =
      (List.range ITERATION).map (latOf clk) := by
  have hk : kThread a regs clk start_idx sm_chosen tid s = leaderLoop clk start_idx s := by
    simp only [kThread]
    rw [if_pos hg]
  rw [hk, leaderLoop_trace, leaderLoop_out, hout, htr]
  simp

/-- Witness for `k_timed_block`: the matching leader of the `k_guard`
scenario, with the cycle counter returning its call index. -/
theorem k_timed_block_witness :
    (get_smid Arch.gcnDefault (fun _ => 1) = 0 ∧ (0 : Nat) = 0) ∧
    devInit.out = [] ∧
    (kThread Arch.gcnDefault (fun _ => 1) (fun n => n) 4 0 0 devInit).out =
      (List.range ITERATION).map (latOf (fun n => n)) :=
  ⟨⟨by decide, rfl⟩, rfl,
    (k_timed_block Arch.gcnDefault (fun _ => 1) (fun n => n) 4 0 0 devInit
      ⟨by decide, rfl⟩ rfl rfl).2⟩

/-- Claim C3: with exactly one matching execution group, the kernel prints
exactly `ITERATION` (5) lines, each an `unsigned int` value (printed by
`printf("%u\n", ...)` as a single non-negative decimal integer); with no
matching group it prints nothing. -/
theorem k_output_count (a : Arch) (regsOf clkOf : Nat → Nat → Nat → Nat)
    (start_idx sm_chosen : Nat) (s : GpuState) (hout : s.out = []) :
    (matchCount a regsOf sm_chosen = 1 →
      (kLaunch a regsOf clkOf start_idx sm_chosen s).out.length = ITERATION ∧
      ∀ x ∈ (kLaunch a regsOf clkOf start_idx sm_chosen s).out, x < M32) ∧
    (matchCount a regsOf sm_chosen = 0 →
      (kLaunch a regsOf clkOf start_idx sm_chosen s).out = []) := by
  constructor
  · intro h1
    obtain ⟨b, _, _, heq⟩ := foldl_guard_one (blockMatches a regsOf sm_chosen)
      (fun b st => leaderLoop (clkOf b 0) start_idx st) (List.range NUM_SM) s h1
    have heq2 : (List.range NUM_SM).foldl (fun st x =>
        if blockMatches a regsOf sm_chosen x then leaderLoop (clkOf x 0) start_idx st
        else st) s = leaderLoop (clkOf b 0) start_idx s := heq
    rw [kLaunch_eq, heq2, leaderLoop_out, hout]
    constructor
    · simp
    · intro x hx
      simp at hx
      obtain ⟨i, _, hix⟩ := hx
      rw [← hix]
      exact usub32_lt _ _
  · intro h0
    have heq2 : (List.range NUM_SM).foldl (fun st x =>
        if blockMatches a regsOf sm_chosen x then leaderLoop (clkOf x 0) start_idx st
        else st) s = s :=
      foldl_guard_zero (blockMatches a regsOf sm_chosen)
        (fun b st => leaderLoop (clkOf b 0) start_idx st) (List.range NUM_SM) s h0
    rw [kLaunch_eq, heq2, hout]

/-- Register-file oracle in which exactly block 0 reports locator identity 0
on a gcn build: every other block's HW_ID register holds 256, so its CU_ID
field (bits 11:8) is 1. -/
def oneMatchRegs : Nat → Nat → Nat → Nat := fun b _ _ => if b = 0 then 0 else 256

/-- Witness for `k_output_count`: with `oneMatchRegs` exactly one block
matches target 0, and the launch prints exactly `ITERATION` lines. -/
theorem k_output_count_witness :
    devInit.out = [] ∧ matchCount Arch.gcnDefault oneMatchRegs 0 = 1 ∧
    (kLaunch Arch.gcnDefault oneMatchRegs (fun _ _ n => n) 3 0 devInit).out.length =
      ITERATION :=
  ⟨rfl, by decide,
    ((k_output_count Arch.gcnDefault oneMatchRegs (fun _ _ n => n) 3 0 devInit rfl).1
      (by decide)).1⟩

/-- Claim C4: with exactly one matching execution group, the only memory
location the whole launch writes is `a0[start_idx]` — every store event in
the trace targets `start_idx`, every other element of `a0` keeps its prior
value, and `a1` is completely unchanged. -/
theorem k_single_writer (a : Arch) (regsOf clkOf : Nat → Nat → Nat → Nat)
    (start_idx sm_chosen : Nat) (s : GpuState)
    (h1 : matchCount a regsOf sm_chosen = 1) (htr : s.trace = []) :
    (∀ j, j ≠ start_idx → (kLaunch a regsOf clkOf start_idx sm_chosen s).a0 j = s.a0 j) ∧
    (kLaunch a regsOf clkOf start_idx sm_chosen s).a1 = s.a1 ∧
    (∀ i v, Ev.store i v ∈ (kLaunch a regsOf clkOf start_idx sm_chosen s).trace →
      i = start_idx) := by
  obtain ⟨b, _, _, heq⟩ := foldl_guard_one (blockMatches a regsOf sm_chosen)
    (fun b st => leaderLoop (clkOf b 0) start_idx st) (List.range NUM_SM) s h1
  have heq2 : (List.range NUM_SM).foldl (fun st x =>
      if blockMatches a regsOf sm_chosen x then leaderLoop (clkOf x 0) start_idx st
      else st) s = leaderLoop (clkOf b 0) start_idx s := heq
  rw [kLaunch_eq, heq2]
  refine ⟨fun j hj => leaderLoop_a0_ne _ _ _ j hj, leaderLoop_a1 _ _ _, ?_⟩
  intro i v hm
  rw [leaderLoop_trace, htr, range_ITERATION] at hm
  simp at hm
  rcases hm with ⟨h, _⟩ | ⟨h, _⟩ | ⟨h, _⟩ | ⟨h, _⟩ | ⟨h, _⟩ <;> exact h

/-- Witness for `k_single_writer`: in the single-match scenario of
`k_output_count_witness`, element 5 of `a0` is untouched by a run whose
`start_idx` is 4. -/
theorem k_single_writer_witness :
    matchCount Arch.gcnDefault oneMatchRegs 0 = 1 ∧ devInit.trace = [] ∧
    (5 : Nat) ≠ 4 ∧
    (kLaunch Arch.gcnDefault oneMatchRegs (fun _ _ n => n) 4 0 devInit).a0 5 =
      devInit.a0 5 :=
  ⟨by decide, rfl, by decide,
    (k_single_writer Arch.gcnDefault oneMatchRegs (fun _ _ n => n) 4 0 devInit
      (by decide) rfl).1 5 (by decide)⟩

/-! ## The run on identity-initialized buffers (claim C5) -/

/-- One iteration of the timed block preserves the identity contents of the
buffers, because the added `a1[0]` is 0. -/
theorem iterStep_preserves (clk : Nat → Nat) (start_idx i : Nat) (st : GpuState)
    (h : (∀ j, st.a0 j = h_arr j) ∧ st.a1 = h_arr) :
    (∀ j, (iterStep clk start_idx i st).a0 j = h_arr j) ∧
    (iterStep clk start_idx i st).a1 = h_arr := by
  obtain ⟨h0, h1⟩ := h
  constructor
  · intro j
    simp only [iterStep, Function.update_apply]
    by_cases hj : j = start_idx
    · subst hj
      rw [if_pos rfl, h0 j, h1]
      simp [h_arr, M32]
    · rw [if_neg hj]
      exact h0 j
  · simp [iterStep, h1]

/-- The timed block preserves the identity contents of the buffers. -/
theorem leaderLoop_preserves (clk : Nat → Nat) (start_idx : Nat) (st : GpuState)
    (h : (∀ j, st.a0 j = h_arr j) ∧ st.a1 = h_arr) :
    (∀ j, (leaderLoop clk start_idx st).a0 j = h_arr j) ∧
    (leaderLoop clk start_idx st).a1 = h_arr := by
  unfold leaderLoop
  exact foldl_inv _ _ (List.range ITERATION) st h
    (fun st2 i h2 => iterStep_preserves clk start_idx i st2 h2)

/-- Every kernel thread preserves the identity contents of the buffers. -/
theorem kThread_preserves (a : Arch) (regs clk : Nat → Nat)
    (start_idx sm_chosen tid : Nat) (st : GpuState)
    (h : (∀ j, st.a0 j = h_arr j) ∧ st.a1 = h_arr) :
    (∀ j, (kThread a regs clk start_idx sm_chosen tid st).a0 j = h_arr j) ∧
    (kThread a regs clk start_idx sm_chosen tid st).a1 = h_arr := by
  by_cases hc : get_smid a regs = sm_chosen ∧ tid = 0
  · simp only [kThread]
    rw [if_pos hc]
    exact leaderLoop_preserves clk start_idx st h
  · simp only [kThread]
    rw [if_neg hc]
    exact h

/-- Claim C5: both device buffers are initialized from the same host array
`h_arr` with `h_arr[i] = i`, so `a1[0] = 0` when the kernel runs and the
timed operation adds zero — after the launch every element of `a0`
(including `a0[start_idx]`) still holds its initial value. -/
theorem k_preserves_identity (a : Arch) (regsOf clkOf : Nat → Nat → Nat → Nat)
    (start_idx sm_chosen : Nat) :
    (∀ j, (kLaunch a regsOf clkOf start_idx sm_chosen devInit).a0 j = h_arr j) ∧
    h_arr 0 = 0 ∧
    (∀ i, i < S_SIZE → h_arr i = i) := by
  refine ⟨?_, rfl, ?_⟩
  · have hP : (∀ j, (kLaunch a regsOf clkOf start_idx sm_chosen devInit).a0 j = h_arr j) ∧
        (kLaunch a regsOf clkOf start_idx sm_chosen devInit).a1 = h_arr := by
      unfold kLaunch
      refine foldl_inv (fun st => (∀ j, st.a0 j = h_arr j) ∧ st.a1 = h_arr) _
        (List.range NUM_SM) devInit ⟨fun j => rfl, rfl⟩ ?_
      intro st b hst
      refine foldl_inv (fun st => (∀ j, st.a0 j = h_arr j) ∧ st.a1 = h_arr) _
        (List.range BLOCK_SIZE) st hst ?_
      intro st2 t h2
      exact kThread_preserves a (regsOf b t) (clkOf b t) start_idx sm_chosen t st2 h2
    exact hP.1
  · intro i hi
    simp only [S_SIZE] at hi
    simp only [h_arr, M32]
    omega

/-- Witness for `k_preserves_identity`: after a run over the
identity-initialized buffers, `a0[7]` still holds 7. -/
theorem k_preserves_identity_witness :
    (7 : Nat) < S_SIZE ∧ h_arr 7 = 7 ∧
    (kLaunch Arch.gcnDefault oneMatchRegs (fun _ _ n => n) 3 0 devInit).a0 7 = h_arr 7 :=
  ⟨by decide,
    (k_preserves_identity Arch.gcnDefault oneMatchRegs (fun _ _ n => n) 3 0).2.2 7 (by decide),
    (k_preserves_identity Arch.gcnDefault oneMatchRegs (fun _ _ n => n) 3 0).1 7⟩

/-! ## The host orchestrator `main` (latency.cpp:177-213)

The device-API error state is an oracle `err : Nat → Option String` giving
what `hipGetLastError()` reports at the `i`-th `hipCheckError()` call site
(`none` = `hipSuccess`, `some msg` = failure with error string `msg`).  The
orchestrator's behaviour is recorded as an event list plus the device buffer
contents established by the copies, the printed lines, and the exit code. -/

/-- A host-side event: a device call, a resource release, or a process
termination (`exitCall` from the `hipCheckError` macro, `ret` from the
normal end of `main`). -/
inductive HEv
| setDevice
| alloc (buf size : Nat)
| copy (buf size : Nat)
| launch (si sm : Int)
| sync
| freeHost
| freeDev (buf : Nat)
| exitCall (code : Nat)
| ret (code : Nat)
deriving DecidableEq

/-- Result of a run of `main`: the events in program order, the contents
copied into the two device buffers (`none` while still uninitialized), the
process exit status, and the host-printed stdout lines. -/
structure HostResult where
  events : List HEv
  d_a0 : Option (Nat → Nat)
  d_a1 : Option (Nat → Nat)
  exitCode : Nat
  stdoutH : List String

/-- latency.cpp:16: the failure line
`printf("HIP failure %s:%d: '%s'\n", __FILE__, __LINE__, hipGetErrorString(e))`. -/
def hipFailureLine (line : Nat) (msg : String) : String :=
  "HIP failure latency.cpp:" ++ toString line ++ ": \x27" ++ msg ++ "\x27"

/-- latency.cpp:13-19: the failing branch of `hipCheckError()` — print one
failure line and `exit(0)`. -/
def failRes (evs : List HEv) (line : Nat) (msg : String)
    (d0 d1 : Option (Nat → Nat)) : HostResult :=
  { events := evs ++ [HEv.exitCall 0]
    d_a0 := d0
    d_a1 := d1
    exitCode := 0
    stdoutH := [hipFailureLine line msg] }

/-- latency.cpp:177-213: `main`.  `arg1`/`arg2` are the `atoi` values of the
two command-line arguments; `err` is the device-API error oracle.  The six
`hipCheckError()` sites sit at lines 189, 191, 198, 200, 203 and 205, right
after the two `hipMalloc`s, the two `hipMemcpy`s, the kernel launch and the
`hipDeviceSynchronize`. -/
def mainRun (arg1 arg2 : Int) (err : Nat → Option String) : HostResult :=
  let start_idx : Int := arg1 * 64
  let sm_chosen : Int := arg2
  let e1 := [HEv.setDevice, HEv.alloc 0 S_SIZE]
  match err 0 with
  | some s => failRes e1 189 s none none
  | none =>
  let e2 := e1 ++ [HEv.alloc 1 S_SIZE]
  match err 1 with
  | some s => failRes e2 191 s none none
  | none =>
  let e3 := e2 ++ [HEv.copy 0 S_SIZE]
  match err 2 with
  | some s => failRes e3 198 s (some h_arr) none
  | none =>
  let e4 := e3 ++ [HEv.copy 1 S_SIZE]
  match err 3 with
  | some s => failRes e4 200 s (some h_arr) (some h_arr)
  | none =>
  let e5 := e4 ++ [HEv.launch start_idx sm_chosen]
  match err 4 with
  | some s => failRes e5 203 s (some h_arr) (some h_arr)
  | none =>
  let e6 := e5 ++ [HEv.sync]
  match err 5 with
  | some s => failRes e6 205 s (some h_arr) (some h_arr)
  | none =>
  { events := e6 ++ [HEv.freeHost, HEv.freeDev 0, HEv.freeDev 1, HEv.ret 0]
    d_a0 := some h_arr
    d_a1 := some h_arr
    exitCode := 0
    stdoutH := [] }

/-- The source line of the `i`-th `hipCheckError()` call site. -/
def checkLines : List Nat := [189, 191, 198, 200, 203, 205]

/-- The checked device calls of `main`, in program order. -/
def devCalls (arg1 arg2 : Int) : List HEv :=
  [HEv.alloc 0 S_SIZE, HEv.alloc 1 S_SIZE, HEv.copy 0 S_SIZE, HEv.copy 1 S_SIZE,
   HEv.launch (arg1 * 64) arg2, HEv.sync]

/-- Claim C7: if the `i`-th check is the first one at which the device API
reports an error, the orchestrator prints exactly the one failure line
`"HIP failure <file>:<line>: '<error string>'"` for that call site and
terminates there: the performed device calls are exactly the first `i + 1`
checked calls, followed directly by the `exit` — no retry and no
continuation. -/
theorem hipCheck_fail_stops (arg1 arg2 : Int) (err : Nat → Option String)
    (i : Nat) (msg : String) (hi : i < 6) (hfail : err i = some msg)
    (hok : ∀ j, j < i → err j = none) :
    (mainRun arg1 arg2 err).stdoutH = [hipFailureLine (checkLines.getD i 0) msg] ∧
    (mainRun arg1 arg2 err).events =
      HEv.setDevice :: ((devCalls arg1 arg2).take (i + 1) ++ [HEv.exitCall 0]) ∧
    (mainRun arg1 arg2 err).exitCode = 0 := by
  interval_cases i
  · simp [mainRun, hfail, failRes, checkLines, devCalls]
  · have e0 := hok 0 (by omega)
    simp [mainRun, e0, hfail, failRes, checkLines, devCalls]
  · have e0 := hok 0 (by omega); have e1 := hok 1 (by omega)
    simp [mainRun, e0, e1, hfail, failRes, checkLines, devCalls]
  · have e0 := hok 0 (by omega); have e1 := hok 1 (by omega)
    have e2 := hok 2 (by omega)
    simp [mainRun, e0, e1, e2, hfail, failRes, checkLines, devCalls]
  · have e0 := hok 0 (by omega); have e1 := hok 1 (by omega)
    have e2 := hok 2 (by omega); have e3 := hok 3 (by omega)
    simp [mainRun, e0, e1, e2, e3, hfail, failRes, checkLines, devCalls]
  · have e0 := hok 0 (by omega); have e1 := hok 1 (by omega)
    have e2 := hok 2 (by omega); have e3 := hok 3 (by omega)
    have e4 := hok 4 (by omega)
    simp [mainRun, e0, e1, e2, e3, e4, hfail, failRes, checkLines, devCalls]

/-- Witness for `hipCheck_fail_stops`: the first memcpy check failing with
message "oops". -/
theorem hipCheck_fail_stops_witness :
    ((fun j => if j = 2 then some "oops" else none) 2 = some "oops") ∧
    (mainRun 0 0 (fun j => if j = 2 then some "oops" else none)).stdoutH =
      [hipFailureLine (checkLines.getD 2 0) "oops"] :=
  ⟨rfl,
    (hipCheck_fail_stops 0 0 (fun j => if j = 2 then some "oops" else none) 2 "oops"
      (by decide) rfl (by decide)).1⟩

/-- Claim C8: the process exits with status 0 on every path — both the
normal `return 0` of `main` and every `exit(0)` taken by the
`hipCheckError` macro. -/
theorem main_exit_zero (arg1 arg2 : Int) (err : Nat → Option String) :
    (mainRun arg1 arg2 err).exitCode = 0 := by
  unfold mainRun failRes
  repeat' split
  all_goals rfl

/-- Claim C9: the element offset handed to the kernel is the first
command-line integer argument multiplied by the fixed group size
(`BLOCK_SIZE` = 64), and the second argument is passed to the kernel
unmodified as the target identity: the launch event of any run that reaches
the launch carries exactly those two values. -/
theorem launch_args (arg1 arg2 : Int) (err : Nat → Option String)
    (hok : ∀ j, j < 4 → err j = none) :
    HEv.launch (arg1 * (BLOCK_SIZE : Int)) arg2 ∈ (mainRun arg1 arg2 err).events ∧
    ∀ si sm : Int, HEv.launch si sm ∈ (mainRun arg1 arg2 err).events →
      si = arg1 * (BLOCK_SIZE : Int) ∧ sm = arg2 := by
  have e0 := hok 0 (by omega); have e1 := hok 1 (by omega)
  have e2 := hok 2 (by omega); have e3 := hok 3 (by omega)
  have hb : (BLOCK_SIZE : Int) = 64 := by norm_num [BLOCK_SIZE]
  rw [hb]
  cases h4 : err 4 with
  | some s =>
    constructor
    · simp [mainRun, e0, e1, e2, e3, h4, failRes]
    · intro si sm hm
      simp [mainRun, e0, e1, e2, e3, h4, failRes] at hm
      exact hm
  | none =>
    cases h5 : err 5 with
    | some s =>
      constructor
      · simp [mainRun, e0, e1, e2, e3, h4, h5, failRes]
      · intro si sm hm
        simp [mainRun, e0, e1, e2, e3, h4, h5, failRes] at hm
        exact hm
    | none =>
      constructor
      · simp [mainRun, e0, e1, e2, e3, h4, h5]
      · intro si sm hm
        simp [mainRun, e0, e1, e2, e3, h4, h5] at hm
        exact hm

/-- Witness for `launch_args`: a clean run with arguments 2 and 7 launches
the kernel at offset `2 * BLOCK_SIZE` and target 7. -/
theorem launch_args_witness :
    HEv.launch (2 * (BLOCK_SIZE : Int)) 7 ∈ (mainRun 2 7 (fun _ => none)).events :=
  (launch_args 2 7 (fun _ => none) (fun _ _ => rfl)).1

/-- `h_arr` really is the identity sequence on the buffer's index range. -/
theorem h_arr_id (i : Nat) (hi : i < S_SIZE) : h_arr i = i := by
  simp only [S_SIZE] at hi
  simp only [h_arr, M32]
  omega

/-- Claim C10: a clean run allocates the two device buffers with the same
fixed length `S_SIZE`, fills the host staging array with `h_arr[i] = i`,
copies that same identity sequence once into each buffer, launches and
synchronizes, and frees the host array and both device buffers before the
normal `return 0`. -/
theorem host_buffers (arg1 arg2 : Int) (err : Nat → Option String)
    (hok : ∀ j, j < 6 → err j = none) :
    (mainRun arg1 arg2 err).events =
      [HEv.setDevice, HEv.alloc 0 S_SIZE, HEv.alloc 1 S_SIZE,
       HEv.copy 0 S_SIZE, HEv.copy 1 S_SIZE,
       HEv.launch (arg1 * (BLOCK_SIZE : Int)) arg2, HEv.sync,
       HEv.freeHost, HEv.freeDev 0, HEv.freeDev 1, HEv.ret 0] ∧
    (mainRun arg1 arg2 err).d_a0 = some h_arr ∧
    (mainRun arg1 arg2 err).d_a1 = some h_arr ∧
    (∀ i, i < S_SIZE → h_arr i = i) := by
  have e0 := hok 0 (by omega); have e1 := hok 1 (by omega)
  have e2 := hok 2 (by omega); have e3 := hok 3 (by omega)
  have e4 := hok 4 (by omega); have e5 := hok 5 (by omega)
  have hb : (BLOCK_SIZE : Int) = 64 := by norm_num [BLOCK_SIZE]
  rw [hb]
  refine ⟨?_, ?_, ?_, fun i hi => h_arr_id i hi⟩ <;>
    simp [mainRun, e0, e1, e2, e3, e4, e5]

/-- Witness for `host_buffers`: a clean run copies the identity sequence
into both buffers. -/
theorem host_buffers_witness :
    (mainRun 1 2 (fun _ => none)).d_a0 = some h_arr ∧
    (mainRun 1 2 (fun _ => none)).d_a1 = some h_arr :=
  ⟨(host_buffers 1 2 (fun _ => none) (fun _ _ => rfl)).2.1,
    (host_buffers 1 2 (fun _ => none) (fun _ _ => rfl)).2.2.1⟩
